import Mathlib

/-!
Verification of the AEC-Axis IFC ingestion pipeline against its design
specification.  The definitions below are a shallow embedding of the
pipeline code: the upload orchestrator (`app/services/ifc_service.py`),
the queue worker (`app/worker.py`), the processor backends
(`app/services/ifc/processing/ifc_processor.py` and `mock_processor.py`)
and the local-filesystem storage backend
(`app/services/ifc/storage/local_storage.py`).

External collaborators (S3/SQS transports, the IfcOpenShell parser, the
database engine, wall-clock time) are modelled as environments supplied
to the embedded functions; the database session is modelled explicitly:
`db.add` buffers a pending row, `db.commit` persists every buffered row
together with pending attribute mutations, exactly as the ORM session
used by the code behaves.
-/

/-- Lifecycle status of an uploaded model file (`ifc_files.status`). -/
inductive FileStatus
  | PENDING
  | PROCESSING
  | COMPLETED
  | ERROR
  deriving DecidableEq, Repr

/-- A row of the `ifc_files` table (`app/db/models/ifc_file.py`).
UUIDs are modelled as naturals. -/
structure IFCFileRec where
  id : Nat
  project_id : Nat
  original_filename : String
  file_path : String
  status : FileStatus
  deriving DecidableEq, Repr

/-- A row of the `materials` table (`app/db/models/material.py`). -/
structure MaterialRow where
  description : String
  quantity : Rat
  unit : String
  ifc_file_id : Nat
  deriving DecidableEq, Repr

/-- The committed database state: the two tables the pipeline touches. -/
structure DB where
  files : List IFCFileRec
  materials : List MaterialRow
  deriving DecidableEq, Repr

/-- `db.query(IFCFile).filter(IFCFile.id == ifc_file_id).first()`. -/
def DB.find_file (db : DB) (id : Nat) : Option IFCFileRec :=
  db.files.find? (fun f => f.id == id)

/-- Committing a mutation of the loaded record's `status` attribute. -/
def DB.set_status (db : DB) (id : Nat) (st : FileStatus) : DB :=
  { db with files := db.files.map (fun f => if f.id == id then { f with status := st } else f) }

/-- Flushing a batch of pending `db.add(material)` calls on commit. -/
def DB.add_materials (db : DB) (ms : List MaterialRow) : DB :=
  { db with materials := db.materials ++ ms }

/-- Status of the file `id` as recorded in the database. -/
def DB.file_status (db : DB) (id : Nat) : Option FileStatus :=
  (db.find_file id).map (·.status)

/-- All committed material rows owned by the file `id`. -/
def DB.materials_for (db : DB) (id : Nat) : List MaterialRow :=
  db.materials.filter (fun m => m.ifc_file_id == id)

/-! ## Upload orchestrator (`IFCService.process_ifc_upload_async`) -/

/-- Whether the second character list is a prefix of the first. -/
def starts_with_chars : List Char → List Char → Bool
  | _, [] => true
  | [], _ :: _ => false
  | c :: cs, p :: ps => (c = p : Bool) && starts_with_chars cs ps

/-- Whether the second character list is a suffix of the first
(Python's `str.endswith`). -/
def ends_with_chars (l suf : List Char) : Bool :=
  starts_with_chars l.reverse suf.reverse

/-- The filename gate of `process_ifc_upload_async`:
`if not file.filename or not file.filename.lower().endswith('.ifc')` the
upload is rejected, so the filename is acceptable when it is present,
truthy, and its lower-cased form ends in `.ifc`. -/
def filename_ok : Option String → Bool
  | none => false
  | some s =>
    (!s.data.isEmpty) && ends_with_chars (s.data.map Char.toLower) ".ifc".data

/-- The `UploadResult` dataclass returned by `StorageBackend.upload_file`
(`app/services/ifc/storage/base.py`). -/
structure UploadResultE where
  storage_url : String
  object_key : String
  metadata : List (String × String)
  file_size : Nat
  deriving DecidableEq, Repr

/-- Outcome of the awaited `self.storage.upload_file(...)` call:
a result, an `IFCStorageError`, or any other exception. -/
inductive StorageOutcome
  | ok (res : UploadResultE)
  | storage_err (msg : String)
  | other_err (msg : String)
  deriving DecidableEq, Repr

/-- Outcome of the awaited `self.notifier.notify_processing_queued(...)`
call: success, an `IFCNotificationError`, or any other exception. -/
inductive UNotifyOutcome
  | ok
  | notif_err (msg : String)
  | other_exc (msg : String)
  deriving DecidableEq, Repr

/-- Environment of one upload request: the behaviour of the storage and
notification backends, the database-generated id for the new row, the
`uuid.uuid4()` drawn for the object key, and the current timestamp. -/
structure UploadEnv where
  storage : StorageOutcome
  notify : UNotifyOutcome
  new_file_id : Nat
  key_uuid : String
  now : String
  deriving DecidableEq, Repr

/-- An `HTTPException` as raised by the orchestrator. -/
structure HTTPErrorE where
  status_code : Nat
  detail : String
  deriving DecidableEq, Repr

deriving instance DecidableEq for Except

/-- The column attributes declared on the `IFCFile` model
(`app/db/models/ifc_file.py`, lines 24-35): there is no `file_size`
column. -/
def ifc_file_columns : List String :=
  ["id", "original_filename", "file_path", "status", "project_id",
   "created_at", "updated_at"]

/-- The keyword arguments `process_ifc_upload_async` passes to the
`IFCFile` constructor (`ifc_service.py`, lines 104-110). -/
def ifc_file_ctor_kwargs : List String :=
  ["original_filename", "status", "project_id", "file_path", "file_size"]

/-- SQLAlchemy's default declarative constructor accepts its keyword
arguments only when every keyword names an attribute declared on the
model class; otherwise it raises
`TypeError: ... is an invalid keyword argument ...`. -/
def declarative_ctor_ok (columns kwargs : List String) : Bool :=
  kwargs.all (fun k => columns.contains k)

/-- Shallow embedding of `IFCService.process_ifc_upload_async`
(`app/services/ifc_service.py`, lines 56-143).  Returns the HTTP result
together with the committed database state.  The record-creation step
calls the model's declarative constructor with the keyword arguments of
lines 104-110; because `file_size` is not a declared column of
`IFCFile`, that call raises `TypeError`, which falls to the outer
`except Exception` handler: rollback (nothing was committed) and HTTP
500, without ever reaching the notifier.  The then-branch embeds the
lines that would run if the constructor accepted its keywords: commit
of the PENDING row, then the notify call where only
`IFCNotificationError` is absorbed and where `db.rollback()` after the
commit cannot undo it. -/
def process_ifc_upload_async (env : UploadEnv) (project_id : Nat)
    (filename : Option String) (content_len : Nat) (db : DB) :
    Except HTTPErrorE IFCFileRec × DB :=
  if !(filename_ok filename) then
    (.error ⟨400, "Only IFC files are allowed"⟩, db)
  else
    let fn := filename.getD ""
    let object_key := "ifc-files/" ++ env.key_uuid ++ ".ifc"
    let _metadata : List (String × String) :=
      [("original_filename", fn), ("project_id", toString project_id),
       ("upload_timestamp", env.now)]
    let _content_len := content_len
    match env.storage with
    | .storage_err m =>
        -- `except IFCStorageError`: rollback (nothing committed) and HTTP 500
        (.error ⟨500, "Storage error: " ++ m⟩, db)
    | .other_err _ =>
        -- `except Exception`: rollback (nothing committed) and HTTP 500
        (.error ⟨500, "Internal processing error"⟩, db)
    | .ok _res =>
        if declarative_ctor_ok ifc_file_columns ifc_file_ctor_kwargs then
          let rec_row : IFCFileRec :=
            { id := env.new_file_id, project_id := project_id,
              original_filename := fn, file_path := object_key,
              status := .PENDING }
          let db1 : DB := { db with files := db.files ++ [rec_row] }
          match env.notify with
          | .ok => (.ok rec_row, db1)
          | .notif_err _ =>
              -- `except IFCNotificationError`: logged, upload still succeeds
              (.ok rec_row, db1)
          | .other_exc _ =>
              -- any other exception falls to the outer `except Exception`:
              -- rollback after the commit is a no-op, then HTTP 500
              (.error ⟨500, "Internal processing error"⟩, db1)
        else
          -- the `TypeError` raised by `IFCFile(... file_size=...)` falls
          -- to the outer `except Exception`: rollback (nothing committed)
          -- and HTTP 500; the notifier is never called
          (.error ⟨500, "Internal processing error"⟩, db)

/-! ## Worker (`app/worker.py`, `process_ifc_file`) -/

/-- Value of a quantity attribute on an IFC quantity entity, as read by
the worker: the attribute may be missing (`hasattr` false), present but
`None` (so `float(...)` raises `TypeError`), or a number. -/
inductive AttrVal
  | absent
  | nullval
  | num (v : Rat)
  deriving DecidableEq, Repr

/-- The quantity kinds the worker's loop inspects
(`IfcQuantityVolume/Area/Length/Count`); anything else is skipped. -/
inductive WQtyKind
  | volume
  | area
  | length
  | count
  | other
  deriving DecidableEq, Repr

/-- One entry of an `IfcElementQuantity.Quantities` list, as the worker
sees it. -/
structure WQty where
  kind : WQtyKind
  val : AttrVal
  deriving DecidableEq, Repr

/-- One `IsDefinedBy` definition of a product: either a property
definition that `is_a('IfcElementQuantity')` with its quantity list, or
any other definition (skipped by the worker). -/
inductive WPropDef
  | element_quantity (qs : List WQty)
  | other_def
  deriving DecidableEq, Repr

/-- An `IfcProduct` as the worker's extraction loop reads it. -/
structure WProduct where
  name : Option String
  object_type : Option String
  type_name : String
  defs : List WPropDef
  deriving DecidableEq, Repr

/-- Unit string the worker assigns per matched quantity kind
(`worker.py` lines 128-143). -/
def w_unit : WQtyKind → String
  | .volume => "m³"
  | .area => "m²"
  | .length => "m"
  | .count => "count"
  | .other => "unit"

/-- The worker's inner loop over one `Quantities` list: the first entry
of a matched kind sets `quantity`/`unit` and breaks.  A present-but-
`None` value makes `float(None)` raise (`Except.error`); a missing
attribute leaves `quantity = None` but still sets the unit and breaks. -/
def w_scan_qtys : List WQty → Except Unit (Option (Option Rat × String))
  | [] => .ok none
  | q :: rest =>
    match q.kind with
    | .other => w_scan_qtys rest
    | k =>
      match q.val with
      | .nullval => .error ()
      | .absent => .ok (some (none, w_unit k))
      | .num v => .ok (some (some v, w_unit k))

/-- The worker's outer loop over `IsDefinedBy` (`worker.py` lines
119-146): walks the element-quantity definitions, carrying the current
`(quantity, unit)` pair, and breaks once `quantity` is not `None`. -/
def w_find_qty : List WPropDef → Option Rat × String → Except Unit (Option Rat × String)
  | [], cur => .ok cur
  | .other_def :: rest, cur => w_find_qty rest cur
  | .element_quantity qs :: rest, cur =>
    match w_scan_qtys qs with
    | .error e => .error e
    | .ok none => w_find_qty rest cur
    | .ok (some (qopt, u)) =>
      match qopt with
      | some v => .ok (some v, u)
      | none => w_find_qty rest (none, u)

/-- Description derivation plus quantity extraction for one product
(`worker.py` lines 108-159), producing the `Material` row passed to
`db.add`, or the exception that escaped the loop body. -/
def w_product_material (file_id : Nat) (p : WProduct) : Except Unit MaterialRow :=
  let d0 := match p.name with
    | some s => if s == "" then "Unknown Product" else s
    | none => "Unknown Product"
  let desc := if d0 == "$" then
      (match p.object_type with
       | some t => if t == "" then p.type_name else t
       | none => p.type_name)
    else d0
  match w_find_qty p.defs (none, "unit") with
  | .error e => .error e
  | .ok (qopt, u) =>
    let qu : Rat × String := match qopt with
      | none => (1, "item")
      | some v => (v, u)
    .ok { description := desc, quantity := qu.1, unit := qu.2, ifc_file_id := file_id }

/-- The `for product in products` loop: returns the rows buffered by
`db.add` up to (not including) the first product whose processing
raised, together with whether a product raised. -/
def w_extract_loop (file_id : Nat) : List WProduct → List MaterialRow × Bool
  | [] => ([], false)
  | p :: rest =>
    match w_product_material file_id p with
    | .error _ => ([], true)
    | .ok m =>
      let r := w_extract_loop file_id rest
      (m :: r.1, r.2)

/-- Outcome of the S3 download plus `ifcopenshell.open` steps: the
product list of the opened model, or an exception raised before the
extraction loop starts. -/
inductive DownloadOutcome
  | ok (products : List WProduct)
  | raise_err
  deriving DecidableEq, Repr

/-- Behaviour of the WebSocket notification transport behind
`_notify_status_update`. -/
inductive NotifyOutcome
  | ok
  | raises (msg : String)
  deriving DecidableEq, Repr

/-- `_notify_status_update` (`worker.py` lines 21-37): every exception
from the transport is caught and printed, so the caller only ever
observes an optional log line. -/
def notify_status_update : NotifyOutcome → Option String
  | .ok => none
  | .raises m => some ("Error sending WebSocket notification: " ++ m)

/-- Environment of one worker processing run. -/
structure WorkerEnv where
  download : DownloadOutcome
  notify : NotifyOutcome
  deriving DecidableEq, Repr

/-- Result of one `process_ifc_file` run: the committed database, whether
the call re-raised, the file statuses committed during the run (in
order), and the log lines printed by the notification wrapper. -/
structure WorkerRunResult where
  db : DB
  raised : Bool
  committed_statuses : List FileStatus
  logs : List String
  deriving DecidableEq, Repr

/-- Shallow embedding of `process_ifc_file` (`app/worker.py`, lines
50-194).  The record is loaded (absent means return); the status is set
to PROCESSING and committed; the file is downloaded and its products
walked, buffering one `db.add` per product; on success the COMPLETED
commit flushes the buffered rows; on any exception the handler sets
ERROR and commits — a commit that also flushes whatever rows were
already buffered — and re-raises. -/
def process_ifc_file (env : WorkerEnv) (ifc_file_id : Nat) (db : DB) : WorkerRunResult :=
  match db.find_file ifc_file_id with
  | none => ⟨db, false, [], []⟩
  | some _ =>
    let db1 := db.set_status ifc_file_id .PROCESSING
    let log1 := (notify_status_update env.notify).toList
    match env.download with
    | .raise_err =>
        let db2 := db1.set_status ifc_file_id .ERROR
        ⟨db2, true, [.PROCESSING, .ERROR],
          log1 ++ (notify_status_update env.notify).toList⟩
    | .ok products =>
        let pr := w_extract_loop ifc_file_id products
        if pr.2 then
          let db2 := (db1.add_materials pr.1).set_status ifc_file_id .ERROR
          ⟨db2, true, [.PROCESSING, .ERROR],
            log1 ++ (notify_status_update env.notify).toList⟩
        else
          let db2 := (db1.add_materials pr.1).set_status ifc_file_id .COMPLETED
          ⟨db2, false, [.PROCESSING, .COMPLETED],
            log1 ++ (notify_status_update env.notify).toList⟩

/-! ## Worker message loop (`app/worker.py`, `start_worker_loop`) -/

/-- The parse of one queue-message body: `json.loads` either raises
`JSONDecodeError`, or yields an object whose `ifc_file_id` field may be
absent. -/
inductive ParsedBody
  | parse_error
  | obj (ifc_file_id : Option String)
  deriving DecidableEq, Repr

/-- Result of handling one queue message: the committed database and
whether `delete_message` was called for the message. -/
structure MessageResult where
  db : DB
  deleted : Bool
  deriving DecidableEq, Repr

/-- Shallow embedding of the per-message body of `start_worker_loop`
(`app/worker.py`, lines 250-302).  `uuid_parse` models `uuid.UUID`:
`none` means it raised `ValueError`.  Invalid JSON and invalid UUIDs
are deleted; a missing (or empty, hence falsy) `ifc_file_id` hits the
`continue` at line 260 without deletion; a processing exception reaches
the generic handler, which deliberately does not delete. -/
def handle_message (uuid_parse : String → Option Nat) (wenv : WorkerEnv)
    (body : ParsedBody) (db : DB) : MessageResult :=
  match body with
  | .parse_error => ⟨db, true⟩
  | .obj none => ⟨db, false⟩
  | .obj (some s) =>
    if s == "" then ⟨db, false⟩
    else
      match uuid_parse s with
      | none => ⟨db, true⟩
      | some fid =>
        let run := process_ifc_file wenv fid db
        if run.raised then ⟨run.db, false⟩ else ⟨run.db, true⟩

/-! ## Real processor (`IfcOpenShellProcessor`) -/

/-- `ProcessingStatus` from `app/services/ifc/processing/base.py`. -/
inductive ProcessingStatus
  | PENDING
  | PROCESSING
  | COMPLETED
  | FAILED
  deriving DecidableEq, Repr

/-- The quantity kinds `_extract_element_quantity` matches
(`IfcQuantityVolume/Weight/Area/Length`); `IfcQuantityCount` and other
kinds fall through its if/elif chain. -/
inductive PQtyKind
  | volume
  | weight
  | area
  | length
  | count
  | other
  deriving DecidableEq, Repr

/-- One entry of a quantity set as the processor reads it; `value none`
models a `None` attribute (falsy, mapped to 0 by the code). -/
structure PQty where
  kind : PQtyKind
  value : Option Rat
  deriving DecidableEq, Repr

/-- One `IsDefinedBy` definition as `_extract_element_quantity` filters
them: an `IfcRelDefinesByProperties` whose property definition
`is_a('IfcElementQuantity')`, or anything else (skipped). -/
inductive PPropDef
  | element_quantity (qs : List PQty)
  | other_def
  deriving DecidableEq, Repr

/-- A structural element as `_extract_element_material` reads it. -/
structure PElement where
  global_id : Option String
  internal_id : Nat
  name : Option String
  is_a_type : String
  defs : List PPropDef
  deriving DecidableEq, Repr

/-- One extracted material dictionary
(`IfcOpenShellProcessor._extract_element_material` return value). -/
structure MaterialData where
  ifc_element_id : String
  description : String
  material_type : String
  quantity : Rat
  unit : String
  element_type : String
  deriving DecidableEq, Repr

/-- The inner loop of `_extract_element_quantity` over one `Quantities`
list: the first entry whose kind is volume/weight/area/length returns
its (falsy-defaulted) value; count and other kinds are skipped. -/
def quantity_of_items : List PQty → Option Rat
  | [] => none
  | q :: rest =>
    match q.kind with
    | .volume => some (q.value.getD 0)
    | .weight => some (q.value.getD 0)
    | .area => some (q.value.getD 0)
    | .length => some (q.value.getD 0)
    | _ => quantity_of_items rest

/-- `IfcOpenShellProcessor._extract_element_quantity`
(`ifc_processor.py`, lines 372-406): walks the element-quantity
definitions; the first one whose quantity list matches returns; with no
match the function returns 0. -/
def extract_element_quantity : List PPropDef → Rat
  | [] => 0
  | .other_def :: rest => extract_element_quantity rest
  | .element_quantity qs :: rest =>
    match quantity_of_items qs with
    | some v => v
    | none => extract_element_quantity rest

/-- Whether the second character list occurs inside the first. -/
def contains_chars : List Char → List Char → Bool
  | [], p => p.isEmpty
  | s@(_ :: rest), p => starts_with_chars s p || contains_chars rest p

/-- Python's `pat in s` substring test. -/
def str_contains (s pat : String) : Bool :=
  contains_chars s.data pat.data

/-- `IfcOpenShellProcessor._extract_element_material`
(`ifc_processor.py`, lines 327-370): the unit is chosen from the
default material type (`'Steel' in default_material_type` gives kg,
anything else m³), and a zero extracted quantity is replaced by the
nominal default (100 kg for steel, 1.0 m³ otherwise). -/
def extract_element_material (e : PElement) (default_material_type : String) : MaterialData :=
  let element_id := match e.global_id with
    | some g => g
    | none => toString e.internal_id
  let element_name := match e.name with
    | some n => if n == "" then e.is_a_type else n
    | none => e.is_a_type
  let q0 := extract_element_quantity e.defs
  if str_contains default_material_type "Steel" then
    { ifc_element_id := element_id,
      description := element_name ++ " - " ++ default_material_type,
      material_type := default_material_type,
      quantity := if q0 == 0 then 100 else q0,
      unit := "kg",
      element_type := e.is_a_type }
  else
    { ifc_element_id := element_id,
      description := element_name ++ " - " ++ default_material_type,
      material_type := default_material_type,
      quantity := if q0 == 0 then 1 else q0,
      unit := "m³",
      element_type := e.is_a_type }

/-- Outcome of one internal step of `_perform_processing`: the step
completes with a value, hits its `asyncio.wait_for` timeout, or raises
an exception carrying a message. -/
inductive StepOutcome (α : Type)
  | ok (a : α)
  | timeout
  | raises (msg : String)
  deriving DecidableEq, Repr

/-- Environment of one `_perform_processing` run: outcome of the
download, validation and extraction steps, plus the rendering of the
elapsed time that the timeout message interpolates. -/
structure PerformEnv where
  download : StepOutcome Unit
  validate : StepOutcome Bool
  extract : StepOutcome (List MaterialData)
  elapsed_repr : String
  deriving DecidableEq, Repr

/-- `IfcOpenShellProcessor._perform_processing` (`ifc_processor.py`,
lines 111-177): an `asyncio.TimeoutError` becomes
`IFCProcessingError("Processing timeout after ... seconds")`; a failed
validation raises `IFCProcessingError("Invalid IFC file format")`
inside the try block; every other exception is wrapped as
`IFCProcessingError("Processing error: ...")` — so the function either
returns the extracted materials or raises an `IFCProcessingError`
whose message is produced here. -/
def perform_processing (env : PerformEnv) : Except String (List MaterialData) :=
  let timeout_msg := "Processing timeout after " ++ env.elapsed_repr ++ " seconds"
  match env.download with
  | .timeout => .error timeout_msg
  | .raises m => .error ("Processing error: " ++ m)
  | .ok _ =>
    match env.validate with
    | .timeout => .error timeout_msg
    | .raises m => .error ("Processing error: " ++ m)
    | .ok false => .error ("Processing error: Invalid IFC file format")
    | .ok true =>
      match env.extract with
      | .timeout => .error timeout_msg
      | .raises m => .error ("Processing error: " ++ m)
      | .ok mats => .ok mats

/-- The `ProcessingResult` dataclass (wall-clock timing fields are
outside the embedding). -/
structure ProcessingResultE where
  status : ProcessingStatus
  materials_count : Nat
  error_message : Option String
  extracted_data : Option (List MaterialData)
  deriving DecidableEq, Repr

/-- `IfcOpenShellProcessor.process_file` (`ifc_processor.py`, lines
72-109): with the circuit breaker open the call fails fast with the
dedicated message; otherwise `_perform_processing` runs and any
exception it raised is converted into a FAILED result with
`materials_count = 0` and `error_message = str(e)`. -/
def process_file (breaker_open : Bool) (env : PerformEnv) : ProcessingResultE :=
  if breaker_open then
    { status := .FAILED, materials_count := 0,
      error_message := some "IFC processing temporarily unavailable (circuit breaker open)",
      extracted_data := none }
  else
    match perform_processing env with
    | .ok mats =>
        { status := .COMPLETED, materials_count := mats.length,
          error_message := none, extracted_data := some mats }
    | .error m =>
        { status := .FAILED, materials_count := 0,
          error_message := some m, extracted_data := none }

/-! ## Mock processor (`MockIFCProcessor`) -/

/-- `MockBehavior` from `mock_processor.py`. -/
inductive MockBehavior
  | success
  | failure
  | timeout
  | slow_success
  deriving DecidableEq, Repr

/-- The configurable state of `MockIFCProcessor` (delay fields are
wall-clock only and outside the embedding). -/
structure MockConfig where
  behavior : MockBehavior := .success
  materials_count : Nat := 5
  should_fail : Bool := false
  failure_message : String := "Mock processing failure"
  deriving DecidableEq, Repr

/-- The fixed table in `MockIFCProcessor._generate_mock_materials`:
(material type, base quantity, unit). -/
def mock_materials_table : List (String × Rat × String) :=
  [("Steel Beam", 150, "kg"),
   ("Steel Column", 200, "kg"),
   ("Precast Concrete Panel", 2.5, "m³"),
   ("Precast Concrete Slab", 5.0, "m³"),
   ("Steel Connection", 50, "kg"),
   ("Concrete Foundation", 10.0, "m³"),
   ("Metal Roofing", 100, "m²"),
   ("Insulation Panel", 150, "m²")]

/-- `MockIFCProcessor._generate_mock_materials` (`mock_processor.py`,
lines 155-193): the first `min(materials_count, 8)` table rows, with
quantities varied by `i * 10`. -/
def generate_mock_materials (cfg : MockConfig) : List MaterialData :=
  ((mock_materials_table.take cfg.materials_count).enum).map (fun p =>
    { ifc_element_id := "mock_element_" ++ toString (p.1 + 1),
      description := p.2.1 ++ " - Mock Element " ++ toString (p.1 + 1),
      material_type := p.2.1,
      quantity := p.2.2.1 + p.1 * 10,
      unit := p.2.2.2,
      element_type := "Ifc" ++ (p.2.1.replace " " "") })

/-- `MockIFCProcessor.process_file` (`mock_processor.py`, lines 68-153):
failure behaviour (or `should_fail`) returns FAILED with the configured
message; the timeout behaviour, once its sleep elapses, returns FAILED
with "Processing timeout"; both success behaviours return COMPLETED
with the generated materials. -/
def mock_process_file (cfg : MockConfig) : ProcessingResultE :=
  if cfg.behavior == .failure || cfg.should_fail then
    { status := .FAILED, materials_count := 0,
      error_message := some cfg.failure_message, extracted_data := none }
  else
    match cfg.behavior with
    | .timeout =>
        { status := .FAILED, materials_count := 0,
          error_message := some "Processing timeout", extracted_data := none }
    | _ =>
        let mats := generate_mock_materials cfg
        { status := .COMPLETED, materials_count := mats.length,
          error_message := none, extracted_data := some mats }

/-! ## Local storage key sanitization (`LocalIFCStorage._get_file_path`) -/

/-- Python's `key.replace('..', '')`: left-to-right removal of
non-overlapping `..` occurrences, on the character list of the key. -/
def replace_dotdot : List Char → List Char
  | [] => []
  | [c] => [c]
  | c :: d :: rest =>
    if c = '.' ∧ d = '.' then replace_dotdot rest
    else c :: replace_dotdot (d :: rest)

/-- Python's `.lstrip('/')`. -/
def lstrip_slash (l : List Char) : List Char :=
  l.dropWhile (· = '/')

/-- The `safe_key` computed by `LocalIFCStorage._get_file_path`
(`local_storage.py`, lines 56-68): `key.replace('..', '').lstrip('/')`. -/
def sanitize_key (key : List Char) : List Char :=
  lstrip_slash (replace_dotdot key)

/-- Splitting a relative path into its `/`-separated components. -/
def split_slash : List Char → List (List Char)
  | [] => [[]]
  | c :: rest =>
    let r := split_slash rest
    if c = '/' then [] :: r
    else (c :: r.headD []) :: r.tail

/-- The local storage backend: `storage_path` is the configured root,
already absolute and normalized by `Path(storage_path).resolve()` in
the constructor, kept as its list of path components. -/
structure LocalIFCStorage where
  storage_path : List (List Char)

/-- `LocalIFCStorage._get_file_path`: the textual join
`self.storage_path / safe_key`, as path components.  `upload_file`,
`delete_file`, `get_presigned_url`, `get_file_content` and
`get_metadata` all address the filesystem exclusively through this
path. -/
def get_file_path (st : LocalIFCStorage) (key : List Char) : List (List Char) :=
  st.storage_path ++ split_slash (sanitize_key key)

/-- One step of operating-system path resolution: empty and `.`
components are skipped, `..` pops the last component, anything else is
entered. -/
def resolve_step (acc : List (List Char)) (c : List Char) : List (List Char) :=
  if c = [] ∨ c = ['.'] then acc
  else if c = ['.', '.'] then acc.dropLast
  else acc ++ [c]

/-- Operating-system resolution of an absolute component list, from the
filesystem root (where `..` stays at the root). -/
def os_resolve (comps : List (List Char)) : List (List Char) :=
  comps.foldl resolve_step []

/-- Whether a character list contains two adjacent dots (a `..`
substring). -/
def has_dd : List Char → Bool
  | c :: d :: rest => (c = '.' ∧ d = '.' : Bool) || has_dd (d :: rest)
  | _ => false

/-! ## Spec-side definitions (for refinement comparison only) -/

/-- Modelled from the spec, §3 invariant: the only legal status
transitions are PENDING → PROCESSING, PROCESSING → COMPLETED and
PROCESSING → ERROR. -/
def spec_legal_transition : FileStatus → FileStatus → Bool
  | .PENDING, .PROCESSING => true
  | .PROCESSING, .COMPLETED => true
  | .PROCESSING, .ERROR => true
  | _, _ => false

/-- Modelled from the spec, §4.2: the unit the specification says a
matched explicit quantity kind determines (volume → m³, weight → kg,
area → m², length → m, count → dimensionless count). -/
def spec_unit_of_kind : PQtyKind → String
  | .volume => "m³"
  | .weight => "kg"
  | .area => "m²"
  | .length => "m"
  | .count => "count"
  | .other => ""

/-- The consecutive status transitions performed by a run that started
from `init` and committed the statuses `trace` in order. -/
def run_transitions (init : FileStatus) (trace : List FileStatus) :
    List (FileStatus × FileStatus) :=
  List.zip (init :: trace) trace

/-! ## Concrete fixtures used by the counterexamples and the code-bug
evaluations -/

/-- A product carrying an explicit volume quantity of 2 m³. -/
def beam_product : WProduct :=
  { name := some "W-Beam", object_type := none, type_name := "IfcBeam",
    defs := [.element_quantity [{ kind := .volume, val := .num 2 }]] }

/-- A product whose `VolumeValue` attribute is present but `None`, so
the worker's `float(qty.VolumeValue)` raises `TypeError` mid-loop. -/
def bad_product : WProduct :=
  { name := some "Bad-Slab", object_type := none, type_name := "IfcSlab",
    defs := [.element_quantity [{ kind := .volume, val := .nullval }]] }

/-- A database holding one PENDING model file with id 1. -/
def db0 : DB :=
  { files := [{ id := 1, project_id := 7, original_filename := "warehouse.ifc",
                file_path := "ifc-files/w.ifc", status := .PENDING }],
    materials := [] }

/-- A worker environment whose download yields one product and whose
notifications succeed. -/
def env_ok : WorkerEnv :=
  { download := .ok [beam_product], notify := .ok }

/-- A worker environment whose download yields a good product followed
by one whose quantity extraction raises. -/
def env_partial : WorkerEnv :=
  { download := .ok [beam_product, bad_product], notify := .ok }

/-- A sample `uuid.UUID` model: only the string "1" parses, to id 1. -/
def uuid_parse_sample : String → Option Nat :=
  fun s => if s == "1" then some 1 else none

/-- An element carrying an explicit volume quantity of 5. -/
def steel_volume_element : PElement :=
  { global_id := some "G1", internal_id := 0, name := some "B-1",
    is_a_type := "IfcBeam",
    defs := [.element_quantity [{ kind := .volume, value := some 5 }]] }

/-- An element whose only explicit quantity is a count. -/
def count_only_element : PElement :=
  { global_id := some "G2", internal_id := 1, name := some "C-1",
    is_a_type := "IfcColumn",
    defs := [.element_quantity [{ kind := .count, value := some 3 }]] }

/-- A mock configuration set to fail with an empty failure message. -/
def cfg_empty_msg : MockConfig :=
  { behavior := .failure, failure_message := "" }

/-- An upload environment where storage succeeds and the notifier raises
an `IFCNotificationError`. -/
def env_notify_nferr : UploadEnv :=
  { storage := .ok { storage_url := "http://localhost:8000/storage/ifc-files/k.ifc",
                     object_key := "ifc-files/k.ifc", metadata := [], file_size := 10 },
    notify := .notif_err "queue down", new_file_id := 9, key_uuid := "k", now := "t" }

/-- An upload environment whose storage raises an `IFCStorageError`. -/
def env_storage_down : UploadEnv :=
  { storage := .storage_err "s3 down", notify := .ok,
    new_file_id := 1, key_uuid := "k", now := "t" }

/-- A processing environment whose download step times out. -/
def env_perform_timeout : PerformEnv :=
  { download := .timeout, validate := .ok true, extract := .ok [],
    elapsed_repr := "1.23" }

/-- A local storage backend rooted at `/root/ifc`. -/
def storage_fixture : LocalIFCStorage :=
  { storage_path := [['r', 'o', 'o', 't'], ['i', 'f', 'c']] }

/-! ## Theorems -/

/-- C1 (code evaluation at the failing input): the worker has no
"skip unless PENDING" guard.  Delivering a processing message for the
PENDING file produces one set of material records and status COMPLETED,
but delivering the same message again after COMPLETED re-processes the
file and appends a second, duplicate set of material records instead of
leaving the set unchanged. -/
theorem worker_redelivery_duplicates_materials :
    (((handle_message uuid_parse_sample env_ok (.obj (some "1")) db0).db).materials_for 1).length = 1 ∧
    ((handle_message uuid_parse_sample env_ok (.obj (some "1")) db0).db).file_status 1 = some .COMPLETED ∧
    (handle_message uuid_parse_sample env_ok (.obj (some "1")) db0).deleted = true ∧
    (((handle_message uuid_parse_sample env_ok (.obj (some "1"))
        (handle_message uuid_parse_sample env_ok (.obj (some "1")) db0).db).db).materials_for 1).length = 2 ∧
    ((handle_message uuid_parse_sample env_ok (.obj (some "1"))
        (handle_message uuid_parse_sample env_ok (.obj (some "1")) db0).db).db).file_status 1 =
      some .COMPLETED := by
  decide

/-- C2 (code evaluation at the failing input): when extraction raises
after some products were already buffered with `db.add`, the exception
handler's `db.commit()` flushes those buffered rows together with the
ERROR status, so one material record is persisted for the failed run
instead of zero — persistence is not all-or-nothing. -/
theorem worker_failure_commits_partial_materials :
    (process_ifc_file env_partial 1 db0).raised = true ∧
    ((process_ifc_file env_partial 1 db0).db).file_status 1 = some .ERROR ∧
    (((process_ifc_file env_partial 1 db0).db).materials_for 1).length = 1 ∧
    ((process_ifc_file env_partial 1 db0).db).materials_for 1 =
      [{ description := "W-Beam", quantity := 2, unit := "m³", ifc_file_id := 1 }] := by
  decide

/-- C3 (code evaluation at the failing input): a second worker run on a
file that already reached COMPLETED sets it back to PROCESSING — the
run's committed transitions are COMPLETED → PROCESSING followed by
PROCESSING → COMPLETED, and COMPLETED → PROCESSING is not among the
transitions the specification allows. -/
theorem worker_redelivery_illegal_transition :
    ((process_ifc_file env_ok 1 db0).db).file_status 1 = some .COMPLETED ∧
    run_transitions .COMPLETED
        (process_ifc_file env_ok 1 (process_ifc_file env_ok 1 db0).db).committed_statuses =
      [(.COMPLETED, .PROCESSING), (.PROCESSING, .COMPLETED)] ∧
    spec_legal_transition .COMPLETED .PROCESSING = false := by
  decide

/-- C4 counterexample: a queue message whose JSON body parses but lacks
the `ifc_file_id` field is not acknowledged: the handler hits the
`continue` at `worker.py` line 260 without calling `delete_message`,
refuting the claim that every malformed body is deleted immediately. -/
theorem missing_field_message_not_deleted :
    (handle_message uuid_parse_sample env_ok (.obj none) db0).deleted = false := by
  decide

/-- C8 counterexample: an element carrying an explicit volume quantity
of 5 under a steel default type gets unit kg, not the m³ the claim's
kind-to-unit mapping requires; and an element whose only explicit
quantity is a count is not matched at all, so the type default 100
applies instead of a dimensionless count of 3. -/
theorem explicit_volume_steel_unit_kg :
    extract_element_quantity steel_volume_element.defs = 5 ∧
    (extract_element_material steel_volume_element "Steel Beam").quantity = 5 ∧
    (extract_element_material steel_volume_element "Steel Beam").unit = "kg" ∧
    spec_unit_of_kind .volume = "m³" ∧
    ("kg" : String) ≠ "m³" ∧
    extract_element_quantity count_only_element.defs = 0 ∧
    (extract_element_material count_only_element "Steel Column").quantity = 100 ∧
    (extract_element_material count_only_element "Steel Column").unit = "kg" := by
  decide

/-- C10 counterexample: the mock processor configured to fail with an
empty failure message returns a FAILED result whose error message is
the empty string, refuting the claim that every failure carries a
non-empty error message under every configured behaviour. -/
theorem mock_empty_failure_message :
    (mock_process_file cfg_empty_msg).status = .FAILED ∧
    (mock_process_file cfg_empty_msg).materials_count = 0 ∧
    (mock_process_file cfg_empty_msg).error_message = some "" := by
  decide

/-! ### Key sanitization lemmas (local storage) -/

/-- A tail of a `..`-free character list is `..`-free. -/
lemma has_dd_tail_false (c : Char) (l : List Char) (h : has_dd (c :: l) = false) :
    has_dd l = false := by
  cases l with
  | nil => simp [has_dd]
  | cons d r =>
    simp only [has_dd, Bool.or_eq_false_iff] at h
    exact h.2

/-- Extending a list containing adjacent dots keeps them. -/
lemma has_dd_cons_mono (c : Char) (l : List Char) (h : has_dd l = true) :
    has_dd (c :: l) = true := by
  cases l with
  | nil => simp [has_dd] at h
  | cons d r => simp [has_dd, h]

/-- If the list does not start with a dot, neither does its
`replace_dotdot` image. -/
lemma replace_dotdot_head_ne (d : Char) (rest : List Char) (hd : ¬ d = '.') :
    (replace_dotdot (d :: rest)).head? ≠ some '.' := by
  cases rest with
  | nil => simp [replace_dotdot, hd]
  | cons e r =>
    simp only [replace_dotdot]
    rw [if_neg (fun h => hd h.1)]
    simp [hd]

/-- The output of `key.replace('..', '')` never contains two adjacent
dots: runs of dots collapse to at most one survivor, so no new `..` can
form across the removed occurrences. -/
lemma has_dd_replace_dotdot (l : List Char) : has_dd (replace_dotdot l) = false := by
  induction l using replace_dotdot.induct with
  | case1 => simp [replace_dotdot, has_dd]
  | case2 c => simp [replace_dotdot, has_dd]
  | case3 c d rest h ih =>
    simp only [replace_dotdot, if_pos h]
    exact ih
  | case4 c d rest h ih =>
    simp only [replace_dotdot, if_neg h]
    cases hX : replace_dotdot (d :: rest) with
    | nil => simp [has_dd]
    | cons x xs =>
      rw [hX] at ih
      simp only [has_dd, Bool.or_eq_false_iff]
      refine ⟨?_, ih⟩
      by_cases hc : c = '.'
      · have hdne : ¬ d = '.' := fun hdd => h ⟨hc, hdd⟩
        have hx : x ≠ '.' := by
          have h2 := replace_dotdot_head_ne d rest hdne
          rw [hX] at h2
          simp at h2
          exact h2
        simp [hx]
      · simp [hc]

/-- Stripping leading slashes preserves `..`-freeness. -/
lemma has_dd_lstrip (l : List Char) (h : has_dd l = false) :
    has_dd (lstrip_slash l) = false := by
  unfold lstrip_slash
  induction l with
  | nil => simpa using h
  | cons c rest ih =>
    rw [List.dropWhile_cons]
    by_cases hc : c = '/'
    · rw [if_pos (by simp [hc])]
      exact ih (has_dd_tail_false c rest h)
    · rw [if_neg (by simp [hc])]
      exact h

/-- If the first `/`-separated component of a list is a lone dot, the
list starts with a dot. -/
lemma split_slash_headD_dot (l : List Char)
    (h : (split_slash l).headD [] = ['.']) : l.head? = some '.' := by
  cases l with
  | nil => simp [split_slash] at h
  | cons c rest =>
    by_cases hc : c = '/'
    · simp [split_slash, hc] at h
    · simp only [split_slash, if_neg hc, List.headD_cons] at h
      have h2 : c = '.' ∧ (split_slash rest).headD [] = [] := by
        simpa [List.cons_eq_cons] using h
      simp [h2.1]

/-- If `..` appears as a `/`-separated component, the list contains two
adjacent dots. -/
lemma dd_mem_split (l : List Char) (h : ['.', '.'] ∈ split_slash l) :
    has_dd l = true := by
  induction l with
  | nil => simp [split_slash] at h
  | cons c rest ih =>
    by_cases hc : c = '/'
    · simp only [split_slash, if_pos hc] at h
      rcases List.mem_cons.mp h with h1 | h1
      · simp at h1
      · exact has_dd_cons_mono c rest (ih h1)
    · simp only [split_slash, if_neg hc] at h
      rcases List.mem_cons.mp h with h1 | h1
      · have hcc : c = '.' ∧ (split_slash rest).headD [] = ['.'] := by
          simpa [List.cons_eq_cons] using h1.symm
        have hr := split_slash_headD_dot rest hcc.2
        cases rest with
        | nil => simp at hr
        | cons d r =>
          simp at hr
          simp [has_dd, hcc.1, hr]
      · have h2 : ['.', '.'] ∈ split_slash rest := by
          have hsub := List.tail_sublist (split_slash rest)
          exact hsub.mem h1
        exact has_dd_cons_mono c rest (ih h2)

/-- Resolving components none of which is `..` never pops, so a prefix
of the accumulator survives. -/
lemma resolve_no_pop (comps : List (List Char)) (root acc : List (List Char))
    (h : ∀ c ∈ comps, c ≠ ['.', '.']) (hpre : root <+: acc) :
    root <+: comps.foldl resolve_step acc := by
  induction comps generalizing acc with
  | nil => simpa using hpre
  | cons c cs ih =>
    simp only [List.foldl_cons]
    apply ih _ (fun x hx => h x (List.mem_cons_of_mem c hx))
    unfold resolve_step
    by_cases h1 : c = [] ∨ c = ['.']
    · simpa [h1] using hpre
    · rw [if_neg h1, if_neg (h c (List.mem_cons_self c cs))]
      exact hpre.trans (List.prefix_append acc [c])

/-- Resolving an already-normalized component list just appends it. -/
lemma resolve_clean (root acc : List (List Char))
    (h : ∀ c ∈ root, c ≠ [] ∧ c ≠ ['.'] ∧ c ≠ ['.', '.']) :
    root.foldl resolve_step acc = acc ++ root := by
  induction root generalizing acc with
  | nil => simp
  | cons c cs ih =>
    simp only [List.foldl_cons]
    have hc := h c (List.mem_cons_self c cs)
    have hstep : resolve_step acc c = acc ++ [c] := by
      unfold resolve_step
      rw [if_neg (by push_neg; exact ⟨hc.1, hc.2.1⟩), if_neg hc.2.2]
    rw [hstep, ih _ (fun x hx => h x (List.mem_cons_of_mem c hx))]
    simp

/-- C9: for every key — including keys with `..` segments, leading
slashes or separators — the path `LocalIFCStorage._get_file_path`
produces resolves to a location inside the configured storage root
(which the constructor normalized with `Path(...).resolve()`), so the
store, delete and read operations, which all address files through this
path, never touch a file outside the root. -/
theorem local_storage_path_stays_in_root (st : LocalIFCStorage) (key : List Char)
    (hroot : ∀ c ∈ st.storage_path, c ≠ [] ∧ c ≠ ['.'] ∧ c ≠ ['.', '.']) :
    st.storage_path <+: os_resolve (get_file_path st key) := by
  unfold os_resolve get_file_path
  rw [List.foldl_append]
  rw [resolve_clean st.storage_path [] hroot]
  simp only [List.nil_append]
  apply resolve_no_pop
  · intro c hc hdd
    subst hdd
    have h1 := dd_mem_split _ hc
    have h2 : has_dd (sanitize_key key) = false :=
      has_dd_lstrip _ (has_dd_replace_dotdot key)
    rw [h1] at h2
    simp at h2
  · exact List.prefix_refl st.storage_path

/-- C9 witness: the concrete storage root `/root/ifc` with the
traversal-shaped key `../../etc/passwd` still resolves inside the
root. -/
theorem local_storage_path_stays_in_root_witness :
    (∀ c ∈ storage_fixture.storage_path, c ≠ [] ∧ c ≠ ['.'] ∧ c ≠ ['.', '.']) ∧
    storage_fixture.storage_path <+:
      os_resolve (get_file_path storage_fixture ("../../etc/passwd".data)) :=
  ⟨by decide, local_storage_path_stays_in_root storage_fixture ("../../etc/passwd".data) (by decide)⟩

/-! ### String helper lemmas -/

/-- Appending to a string with non-empty data keeps the data non-empty. -/
lemma str_append_ne (a b : String) (h : a.data ≠ []) : (a ++ b).data ≠ [] := by
  rw [String.data_append]
  exact fun hc => h (List.append_eq_nil.mp hc).1

/-- A string with non-empty data is not the empty string. -/
lemma ne_empty_of_data (s : String) (h : s.data ≠ []) : s ≠ "" := by
  intro hc
  rw [hc] at h
  exact h rfl

/-- Every exception message `_perform_processing` can raise is built on
a non-empty literal prefix, hence non-empty. -/
lemma perform_processing_error_ne_empty (env : PerformEnv) (m : String)
    (h : perform_processing env = .error m) : m ≠ "" := by
  obtain ⟨d, v, e, rep⟩ := env
  cases d with
  | timeout =>
    simp only [perform_processing, Except.error.injEq] at h
    subst h
    exact ne_empty_of_data _ (str_append_ne _ _ (str_append_ne _ _ (by decide)))
  | raises m0 =>
    simp only [perform_processing, Except.error.injEq] at h
    subst h
    exact ne_empty_of_data _ (str_append_ne _ _ (by decide))
  | ok u =>
    cases v with
    | timeout =>
      simp only [perform_processing, Except.error.injEq] at h
      subst h
      exact ne_empty_of_data _ (str_append_ne _ _ (str_append_ne _ _ (by decide)))
    | raises m0 =>
      simp only [perform_processing, Except.error.injEq] at h
      subst h
      exact ne_empty_of_data _ (str_append_ne _ _ (by decide))
    | ok b =>
      cases b with
      | false =>
        simp only [perform_processing, Except.error.injEq] at h
        subst h
        decide
      | true =>
        cases e with
        | timeout =>
          simp only [perform_processing, Except.error.injEq] at h
          subst h
          exact ne_empty_of_data _ (str_append_ne _ _ (str_append_ne _ _ (by decide)))
        | raises m0 =>
          simp only [perform_processing, Except.error.injEq] at h
          subst h
          exact ne_empty_of_data _ (str_append_ne _ _ (by decide))
        | ok mats =>
          simp [perform_processing] at h

/-! ### Claim theorems for the remaining claims -/

/-- C4 (amended): messages with invalid JSON are deleted immediately,
and messages whose `ifc_file_id` string fails UUID parsing are deleted
immediately, both without processing; but a message whose JSON object
lacks `ifc_file_id` (or carries an empty, falsy one) is skipped without
deletion and stays on the queue. -/
theorem malformed_message_handling (uuid_parse : String → Option Nat)
    (wenv : WorkerEnv) (db : DB) (s : String) :
    handle_message uuid_parse wenv .parse_error db = ⟨db, true⟩ ∧
    (s ≠ "" → uuid_parse s = none →
      handle_message uuid_parse wenv (.obj (some s)) db = ⟨db, true⟩) ∧
    handle_message uuid_parse wenv (.obj none) db = ⟨db, false⟩ ∧
    handle_message uuid_parse wenv (.obj (some "")) db = ⟨db, false⟩ := by
  refine ⟨rfl, ?_, rfl, rfl⟩
  intro hs hp
  simp [handle_message, hp, hs]

/-- C4 witness: a concrete non-UUID identifier is deleted without
processing. -/
theorem malformed_message_handling_witness :
    ("zzz" : String) ≠ "" ∧ uuid_parse_sample "zzz" = none ∧
    handle_message uuid_parse_sample env_ok (.obj (some "zzz")) db0 = ⟨db0, true⟩ :=
  ⟨by decide, by decide,
   (malformed_message_handling uuid_parse_sample env_ok db0 "zzz").2.1 (by decide) (by decide)⟩

/-- C5: when the storage backend's store operation fails — with the
storage error type or any other exception — the upload aborts with HTTP
500 and the database is unchanged: no ModelFile record is created. -/
theorem upload_storage_failure_no_record (env : UploadEnv) (pid : Nat)
    (fn : Option String) (len : Nat) (db : DB) (m : String)
    (hfn : filename_ok fn = true) :
    (env.storage = .storage_err m →
      process_ifc_upload_async env pid fn len db =
        (.error ⟨500, "Storage error: " ++ m⟩, db)) ∧
    (env.storage = .other_err m →
      process_ifc_upload_async env pid fn len db =
        (.error ⟨500, "Internal processing error"⟩, db)) := by
  constructor <;> intro hst <;> simp [process_ifc_upload_async, hfn, hst]

/-- C5 witness: a concrete upload with failing storage yields HTTP 500
and leaves the database unchanged. -/
theorem upload_storage_failure_no_record_witness :
    filename_ok (some "model.ifc") = true ∧
    process_ifc_upload_async env_storage_down 7 (some "model.ifc") 3 db0 =
      (.error ⟨500, "Storage error: s3 down"⟩, db0) :=
  ⟨by decide,
   (upload_storage_failure_no_record env_storage_down 7 (some "model.ifc") 3 db0 "s3 down"
     (by decide)).1 rfl⟩

/-- C6 (code evaluation at the failing input): on an upload with a
valid filename and succeeding storage, the `IFCFile` constructor
receives the unknown keyword `file_size` and raises `TypeError`, so the
upload fails with HTTP 500 with the database unchanged — no PENDING row
is committed and the notifier is never reached: the outcome is
identical for every notifier behaviour, including one that raises.  The
worker half of the claim does hold: a worker run's committed database,
re-raise flag and status trace never depend on its status-notification
outcomes, because `_notify_status_update` swallows every exception. -/
theorem upload_record_creation_type_error :
    declarative_ctor_ok ifc_file_columns ifc_file_ctor_kwargs = false ∧
    process_ifc_upload_async env_notify_nferr 7 (some "model.ifc") 3 db0 =
      (.error ⟨500, "Internal processing error"⟩, db0) ∧
    (∀ n : UNotifyOutcome,
      process_ifc_upload_async { env_notify_nferr with notify := n } 7 (some "model.ifc") 3 db0 =
        process_ifc_upload_async env_notify_nferr 7 (some "model.ifc") 3 db0) ∧
    (∀ (wenv : WorkerEnv) (n : NotifyOutcome) (id : Nat) (db : DB),
      (process_ifc_file { wenv with notify := n } id db).db =
        (process_ifc_file wenv id db).db ∧
      (process_ifc_file { wenv with notify := n } id db).raised =
        (process_ifc_file wenv id db).raised ∧
      (process_ifc_file { wenv with notify := n } id db).committed_statuses =
        (process_ifc_file wenv id db).committed_statuses) := by
  refine ⟨by decide, by decide, ?_, ?_⟩
  · intro n
    rfl
  · intro wenv n id db
    obtain ⟨dl, nt⟩ := wenv
    cases hf : DB.find_file db id with
    | none => simp [process_ifc_file, hf]
    | some f =>
      cases dl with
      | raise_err => simp [process_ifc_file, hf]
      | ok products =>
        cases hw : (w_extract_loop id products).2 <;>
          simp [process_ifc_file, hf, hw]

/-- C7: an upload whose filename does not end in `.ifc`
case-insensitively (or is missing) is rejected with HTTP 400 before any
side effect — the database is returned unchanged, so zero ModelFile
rows are created — while filenames ending in `.ifc` in any letter case
pass the validation gate. -/
theorem upload_extension_gate (env : UploadEnv) (pid len : Nat) (db : DB)
    (fn : Option String) :
    (filename_ok fn = false →
      process_ifc_upload_async env pid fn len db =
        (.error ⟨400, "Only IFC files are allowed"⟩, db)) ∧
    filename_ok (some "Model.IFC") = true ∧
    filename_ok (some "model.ifc") = true ∧
    filename_ok (some "plan.txt") = false ∧
    filename_ok none = false := by
  refine ⟨?_, by decide, by decide, by decide, by decide⟩
  intro h
  simp [process_ifc_upload_async, h]

/-- C7 witness: the concrete filename `plan.txt` is rejected with HTTP
400 and creates no rows. -/
theorem upload_extension_gate_witness :
    filename_ok (some "plan.txt") = false ∧
    process_ifc_upload_async env_storage_down 7 (some "plan.txt") 3 db0 =
      (.error ⟨400, "Only IFC files are allowed"⟩, db0) :=
  ⟨by decide,
   (upload_extension_gate env_storage_down 7 3 db0 (some "plan.txt")).1 (by decide)⟩

/-- C8 (amended): an explicit quantity set determines only the value —
the first entry of kind volume, weight, area or length is taken, while
count (and any other kind) is skipped — and the unit is always chosen
from the default material type: kg when it contains `Steel`, m³
otherwise; when the extracted quantity is 0 (no explicit set matched,
or an explicit 0) the type-specific default applies: 100 kg for steel,
1.0 m³ otherwise. -/
theorem element_material_unit_and_default_rules (e : PElement) (t : String) :
    ((str_contains t "Steel" = true →
        (extract_element_material e t).unit = "kg" ∧
        (extract_element_material e t).quantity =
          (if extract_element_quantity e.defs == 0 then 100
           else extract_element_quantity e.defs)) ∧
     (str_contains t "Steel" = false →
        (extract_element_material e t).unit = "m³" ∧
        (extract_element_material e t).quantity =
          (if extract_element_quantity e.defs == 0 then 1
           else extract_element_quantity e.defs))) ∧
    (∀ (k : PQtyKind) (v : Rat) (qs : List PQty),
      (k = .volume ∨ k = .weight ∨ k = .area ∨ k = .length) →
      quantity_of_items ({ kind := k, value := some v } :: qs) = some v) ∧
    (∀ (q : PQty) (qs : List PQty),
      (q.kind = .count ∨ q.kind = .other) →
      quantity_of_items (q :: qs) = quantity_of_items qs) := by
  refine ⟨⟨?_, ?_⟩, ?_, ?_⟩
  · intro h
    simp [extract_element_material, h]
  · intro h
    simp [extract_element_material, h]
  · intro k v qs hk
    rcases hk with h | h | h | h <;> subst h <;> simp [quantity_of_items]
  · intro q qs hk
    obtain ⟨k, v⟩ := q
    rcases hk with h | h <;> simp at h <;> subst h <;> simp [quantity_of_items]

/-- C8 witness: a concrete non-steel element with an explicit area
quantity keeps the value 4 and gets unit m³ from its material type. -/
theorem element_material_unit_and_default_rules_witness :
    str_contains "Precast Concrete Panel" "Steel" = false ∧
    quantity_of_items [{ kind := .area, value := some 4 }] = some 4 ∧
    (extract_element_material
      { global_id := some "G9", internal_id := 2, name := some "P-1",
        is_a_type := "IfcWall",
        defs := [.element_quantity [{ kind := .area, value := some 4 }]] }
      "Precast Concrete Panel").unit = "m³" :=
  ⟨by decide,
   (element_material_unit_and_default_rules
     { global_id := some "G9", internal_id := 2, name := some "P-1",
       is_a_type := "IfcWall",
       defs := [.element_quantity [{ kind := .area, value := some 4 }]] }
     "Precast Concrete Panel").2.1 .area 4 [] (by simp),
   ((element_material_unit_and_default_rules
     { global_id := some "G9", internal_id := 2, name := some "P-1",
       is_a_type := "IfcWall",
       defs := [.element_quantity [{ kind := .area, value := some 4 }]] }
     "Precast Concrete Panel").1.2 (by decide)).1⟩

/-- C10 (amended): both `process_file` implementations are total by
construction — every outcome, including circuit-breaker-open and
timeout, is returned as a `ProcessingResult` rather than an exception —
and every FAILED result carries `materials_count = 0`; the real
processor's failure message is always non-empty, while the mock's
failure message is exactly its configured `failure_message` (or the
literal timeout message), which is non-empty in the default
configuration but may be configured empty. -/
theorem process_file_failure_contract :
    (∀ (b : Bool) (env : PerformEnv),
      (process_file b env).status = .FAILED →
        (process_file b env).materials_count = 0 ∧
        ∃ m, (process_file b env).error_message = some m ∧ m ≠ "") ∧
    (∀ cfg : MockConfig,
      (mock_process_file cfg).status = .FAILED →
        (mock_process_file cfg).materials_count = 0 ∧
        ((mock_process_file cfg).error_message = some cfg.failure_message ∨
         (mock_process_file cfg).error_message = some "Processing timeout")) ∧
    ({} : MockConfig).failure_message ≠ "" := by
  refine ⟨?_, ?_, by decide⟩
  · intro b env h
    cases b with
    | true =>
      exact ⟨rfl, "IFC processing temporarily unavailable (circuit breaker open)", rfl, by decide⟩
    | false =>
      cases hp : perform_processing env with
      | ok mats =>
        simp [process_file, hp] at h
      | error m =>
        have hres : process_file false env =
            { status := .FAILED, materials_count := 0,
              error_message := some m, extracted_data := none } := by
          simp [process_file, hp]
        rw [hres]
        exact ⟨rfl, m, rfl, perform_processing_error_ne_empty env m hp⟩
  · intro cfg h
    obtain ⟨bv, mc, sf, fm⟩ := cfg
    cases bv <;> cases sf <;> simp [mock_process_file] at h ⊢

/-- C10 witness: a concrete timed-out run of the real processor yields
FAILED with zero materials and a non-empty message. -/
theorem process_file_failure_contract_witness :
    (process_file false env_perform_timeout).status = .FAILED ∧
    (process_file false env_perform_timeout).materials_count = 0 ∧
    ∃ m, (process_file false env_perform_timeout).error_message = some m ∧ m ≠ "" := by
  have h := (process_file_failure_contract).1 false env_perform_timeout (by decide)
  exact ⟨by decide, h.1, h.2⟩
